import Mathlib

/-!
Shallow embedding of the token-lifecycle subsystem of the RTW repository
(src/backend/controller/authController.js, src/backend/routes/index.js,
the RefreshToken schema in src/unnamed/part_001, and the db connector in
src/unnamed/part_000).

The repository's `JWTService`, `User` mongoose model and `userDTO` modules are
referenced by the controller but are not present under src/; where their
behaviour decides a claim they are modelled from the spec (sections 4.1, 4.2,
6 of spec.md) and marked `Modelled from the spec:` in their doc comments.

Request handlers are embedded as pure functions from a database state plus the
request data to an `Outcome` (the delivered response, a `next(error)` call, or
an uncaught exception) paired with the post-state.  Mongo document ids and user
ids are `Nat`; fresh JWT issuance is made deterministic by threading explicit
nonce arguments (standing for the `iat` claim that distinguishes successive
tokens signed for the same subject).  Fallibility of the backing store's write
operations is an explicit boolean argument (`true` = the write succeeds);
backing-store reads are modelled as infallible since no claim concerns their
failure.
-/

namespace RTW

/-- The purpose a JWT was signed for: access-secret or refresh-secret.
Per spec section 4.1 the two secrets are independent, so purpose is part of
what verification checks. -/
inductive TokPurpose where
  | access
  | refresh
deriving DecidableEq, Repr

/-- Modelled from the spec: a signed credential produced by the Credential
Codec (`JWTService`, not under src/).  `subject` is the `_id` payload field,
`purpose` records which secret signed it, `nonce` stands for the issue-time
claim that makes successive tokens for the same subject distinct, and
`wellSigned` abstracts signature-and-expiry validity at presentation time
(a forged, tampered or expired token has `wellSigned = false`). -/
structure Tok where
  subject : Nat
  purpose : TokPurpose
  nonce : Nat
  wellSigned : Bool
deriving DecidableEq, Repr

/-- Modelled from the spec: `JWTService.signAccessToken(payload, ttl)`.
The ttl string ("30m") is carried only to mirror the call sites. -/
def signAccessToken (subject : Nat) (_ttl : String) (nonce : Nat) : Tok :=
  ⟨subject, TokPurpose.access, nonce, true⟩

/-- Modelled from the spec: `JWTService.signRefreshToken(payload, ttl)`. -/
def signRefreshToken (subject : Nat) (_ttl : String) (nonce : Nat) : Tok :=
  ⟨subject, TokPurpose.refresh, nonce, true⟩

/-- Modelled from the spec: `JWTService.verifyRefreshToken` (section 4.1
`verifyRefresh`).  Returns the subject when the presented value is a
well-signed, unexpired token signed with the refresh secret; fails (the JS
code throws, here `none`) on a missing cookie, a malformed/forged/expired
token, or a token signed for the access purpose. -/
def verifyRefreshToken : Option Tok → Option Nat
  | none => none
  | some t =>
      if t.wellSigned && t.purpose == TokPurpose.refresh then some t.subject
      else none

/-- A document of the `tokens` collection (refreshTokenSchema in
src/unnamed/part_001).  `key` is the document `_id`: every write path in
authController.js addresses the document by `_id` equal to the user id
(`updateOne({ _id: user._id }, ...)` on login, `updateOne({ _id: id }, ...)`
and `findOne({ _id: id, token })` on refresh). -/
structure TokenRec where
  key : Nat
  token : Tok
deriving DecidableEq, Repr

/-- Modelled from the spec: a document of the `User` model (model file not
under src/); carries exactly the fields authController.js reads and writes:
`_id`, `username`, `name`, `email`, and the bcrypt `password` hash. -/
structure UserRec where
  uid : Nat
  username : String
  name : String
  email : String
  password : String
deriving DecidableEq, Repr

/-- The durable state the handlers touch: the `users` and `tokens`
collections, plus the supply of fresh Mongo ids for `User.save()`. -/
structure DB where
  users : List UserRec
  tokens : List TokenRec
  nextUid : Nat
deriving Repr

/-- bcryptjs `hash(password, 10)`, modelled as an injective tagging (the
subsystem treats hashing as an opaque one-way capability, spec section 1). -/
def bcryptHash (password : String) (rounds : Nat) : String :=
  "bcrypt:" ++ toString rounds ++ ":" ++ password

/-- bcryptjs `compare(data, hash)`.  When `data` is not a string (the login
body had no `password` field, so `undefined` is passed) bcryptjs rejects with
an Illegal-arguments error — modelled as `none`; otherwise it reports whether
the hash matches (`some`). -/
def bcryptCompare : Option String → String → Option Bool
  | none, _ => none
  | some p, h => some (bcryptHash p 10 == h)

/-- One of the characters the password regex's fourth lookahead
`(?=.*[@.#$!%*?&^])` accepts. -/
def isSpecialLookahead (c : Char) : Bool :=
  "@.#$!%*?&^".data.contains c

/-- One of the characters the password regex's body class
`[A-Za-z\d@.#$!%*?&]` accepts (note: it does not include `^`). -/
def isPasswordBodyChar (c : Char) : Bool :=
  c.isAlpha || c.isDigit || "@.#$!%*?&".data.contains c

/-- The `passwordPattern` regex of authController.js:
`^(?=.*[a-z])(?=.*[A-Z])(?=.*\d)(?=.*[@.#$!%*?&^])[A-Za-z\d@.#$!%*?&]{8,15}$`:
four lookaheads over the whole string plus an 8–15 character body drawn from
the body class.  (String predicates work on `.data` so concrete instances
reduce in the kernel.) -/
def passwordPattern (s : String) : Bool :=
  s.data.any Char.isLower && s.data.any Char.isUpper &&
  s.data.any Char.isDigit && s.data.any isSpecialLookahead &&
  s.data.all isPasswordBodyChar &&
  decide (8 ≤ s.length) && decide (s.length ≤ 15)

/-- Joi's `.email()` shape check, modelled as the minimal structure the
claims need: a local part, an `@`, and a dotted domain. -/
def emailShape (s : String) : Bool :=
  match s.data.splitOn '@' with
  | [local_, domain] =>
      !local_.isEmpty && domain.contains '.' &&
      !(domain.head? == some '.') && !(domain.getLast? == some '.')
  | _ => false

/-- The fields Joi's `userRegisterSchema` inspects; a missing key is `none`. -/
structure RegisterBody where
  username : Option String
  name : Option String
  email : Option String
  password : Option String
  confirmPassword : Option String
deriving Repr

/-- `userRegisterSchema.validate(req.body)` succeeds: username a string of
length 3–50, name a string of length ≤ 30, email of email shape, password
matching `passwordPattern` — all four required — and `confirmPassword`, when
present, equal to `password` (`Joi.ref`). -/
def validRegister (b : RegisterBody) : Bool :=
  match b.username, b.name, b.email, b.password with
  | some u, some n, some e, some p =>
      decide (3 ≤ u.length) && decide (u.length ≤ 50) &&
      decide (n.length ≤ 30) && emailShape e && passwordPattern p &&
      (match b.confirmPassword with
       | none => true
       | some c => c == p)
  | _, _, _, _ => false

/-- The fields Joi's `userLoginSchema` inspects; a missing key is `none`. -/
structure LoginBody where
  username : Option String
  password : Option String
deriving Repr

/-- `userLoginSchema.validate(req.body)` succeeds: username a string of length
3–30 and required; password NOT required — when present it must match
`passwordPattern`, when absent validation still passes. -/
def validLogin (b : LoginBody) : Bool :=
  match b.username with
  | none => false
  | some u =>
      decide (3 ≤ u.length) && decide (u.length ≤ 30) &&
      (match b.password with
       | none => true
       | some p => passwordPattern p)

/-- One `res.cookie(name, value, { maxAge, httpOnly })` call. -/
structure SetCookie where
  name : String
  value : Tok
  maxAge : Nat
  httpOnly : Bool
deriving DecidableEq, Repr

/-- Modelled from the spec: the `userDTO` projection (dto module not under
src/) — the public-safe view of a user record, stripping the password hash
(spec section 6, `projectPublic`). -/
structure UserDTO where
  uid : Nat
  username : String
  name : String
deriving DecidableEq, Repr

/-- `new userDTO(user)` on a non-null user record. -/
def userDTO (u : UserRec) : UserDTO :=
  ⟨u.uid, u.username, u.name⟩

/-- How a handler invocation ends: a delivered response (`resp`, with the
cookies it set, the cookies it cleared, and the JSON body fields `user` and
`auth`), a `next(error)` call routed to the error middleware (`nextErr`, with
the error object's `status` when the handler built one), or an exception
escaping the async handler uncaught (`thrown`: no response is delivered, so
no staged cookie reaches the client). -/
inductive Outcome where
  | resp (status : Nat) (cookiesSet : List SetCookie)
      (cookiesCleared : List String) (user : Option UserDTO) (auth : Bool)
  | nextErr (status : Option Nat) (message : String)
  | thrown (message : String)
deriving DecidableEq, Repr

/-- The cookies a delivered response set (an undelivered outcome set none). -/
def cookiesOf : Outcome → List SetCookie
  | Outcome.resp _ cs _ _ _ => cs
  | _ => []

/-- Whether the outcome is a delivered response with `auth: true`. -/
def isAuthSuccess : Outcome → Bool
  | Outcome.resp _ _ _ _ true => true
  | _ => false

/-- The `user._id` carried in a delivered response's `user` DTO, if any. -/
def respUserId : Outcome → Option Nat
  | Outcome.resp _ _ _ (some d) _ => some d.uid
  | _ => none

/-- Mongo `updateOne(filter, update)` without upsert on the tokens
collection, filter `{ _id: k }`: rewrite the `token` field of the first
matching document, change nothing when none matches. -/
def updateFirst (l : List TokenRec) (k : Nat) (t : Tok) : List TokenRec :=
  match l with
  | [] => []
  | r :: rs =>
      if r.key == k then { r with token := t } :: rs
      else r :: updateFirst rs k t

/-- Mongo `updateOne({ _id: k }, { token: t }, { upsert: true })`: rewrite
the first matching document, or insert `{ _id: k, token: t }` when none
matches.  Used directly by login; register's `JWTService.storeRefreshToken`
(not under src/) is modelled from the spec as the same atomic upsert keyed by
the subject (spec sections 4.2 `upsert` and 4.3 step 1). -/
def upsertToken (l : List TokenRec) (k : Nat) (t : Tok) : List TokenRec :=
  if l.any (fun r => r.key == k) then updateFirst l k t
  else l ++ [⟨k, t⟩]

/-- Mongo `deleteOne({ token: t })`: remove the first document whose `token`
field equals `t`; removing nothing when none matches is not an error. -/
def deleteFirstByToken (l : List TokenRec) (t : Tok) : List TokenRec :=
  match l with
  | [] => []
  | r :: rs => if r.token == t then rs else r :: deleteFirstByToken rs t

/-- `User.exists({ email })`. -/
def userEmailExists (db : DB) (e : String) : Bool :=
  db.users.any (fun u => u.email == e)

/-- `User.exists({ username })`. -/
def userUsernameExists (db : DB) (n : String) : Bool :=
  db.users.any (fun u => u.username == n)

/-- `User.findOne({ username })`. -/
def findUserByUsername (db : DB) (n : String) : Option UserRec :=
  db.users.find? (fun u => u.username == n)

/-- `User.findOne({ _id: i })`. -/
def findUserById (db : DB) (i : Nat) : Option UserRec :=
  db.users.find? (fun u => u.uid == i)

/-- `authController.register`.  `saveOk` is whether `userToRegister.save()`
succeeds, `storeOk` whether the Session Store write
(`JWTService.storeRefreshToken`) succeeds.  Source steps, in order:
Joi validation; the two existence queries with the email conflict checked
before the username conflict; `bcrypt.hash`; `save` and the two token
signings inside one try/catch; `storeRefreshToken` awaited OUTSIDE any
try/catch, so its failure escapes the handler as an uncaught rejection;
the two `res.cookie` calls (maxAge `1000 * 60 * 60 * 24`, httpOnly); the
201 response with the DTO and `auth: true`. -/
def register (db : DB) (body : RegisterBody) (nonce1 nonce2 : Nat)
    (saveOk : Bool) (storeOk : Bool) : Outcome × DB :=
  if !validRegister body then (Outcome.nextErr none "ValidationError", db)
  else
    match body.username, body.name, body.email, body.password with
    | some username, some name, some email, some password =>
        if userEmailExists db email then
          (Outcome.nextErr (some 409)
            "Email already Register, use another email!", db)
        else if userUsernameExists db username then
          (Outcome.nextErr (some 409)
            "Username is not available , choose another username", db)
        else
          let hashPassword := bcryptHash password 10
          if !saveOk then (Outcome.nextErr none "StoreUnavailable", db)
          else
            let user : UserRec :=
              { uid := db.nextUid, username := username, name := name,
                email := email, password := hashPassword }
            let db1 : DB :=
              { db with users := db.users ++ [user],
                        nextUid := db.nextUid + 1 }
            let accessToken := signAccessToken user.uid "30m" nonce1
            let refreshToken := signRefreshToken user.uid "60m" nonce2
            if !storeOk then (Outcome.thrown "StoreUnavailable", db1)
            else
              let db2 : DB :=
                { db1 with
                    tokens := upsertToken db1.tokens user.uid refreshToken }
              (Outcome.resp 201
                [⟨"accessToken", accessToken, 1000 * 60 * 60 * 24, true⟩,
                 ⟨"refreshToken", refreshToken, 1000 * 60 * 60 * 24, true⟩]
                [] (some (userDTO user)) true, db2)
    | _, _, _, _ => (Outcome.nextErr none "ValidationError", db)

/-- `authController.login`.  `storeOk` is whether the
`RefreshToken.updateOne(..., { upsert: true })` write succeeds (its failure
is caught and forwarded to `next`).  Source steps, in order: Joi validation;
`User.findOne({ username })`, absence → `next({ status: 401 })` (the source
spells the message key `mesasge`); `bcrypt.compare(password, user.password)`
— with no password field this rejects and the catch forwards the error;
a non-matching password → 401; the token pair is signed; the upsert; the two
`res.cookie` calls (both maxAge `1000 * 60 * 60 * 24`); the 200 response. -/
def login (db : DB) (body : LoginBody) (nonce1 nonce2 : Nat)
    (storeOk : Bool) : Outcome × DB :=
  if !validLogin body then (Outcome.nextErr none "ValidationError", db)
  else
    match body.username with
    | none => (Outcome.nextErr none "ValidationError", db)
    | some username =>
        match findUserByUsername db username with
        | none => (Outcome.nextErr (some 401) "Invalid username", db)
        | some user =>
            match bcryptCompare body.password user.password with
            | none => (Outcome.nextErr none "Illegal arguments", db)
            | some matched =>
                if !matched then
                  (Outcome.nextErr (some 401) "Invalid password", db)
                else
                  let accessToken := signAccessToken user.uid "30m" nonce1
                  let refreshToken := signRefreshToken user.uid "60m" nonce2
                  if !storeOk then
                    (Outcome.nextErr none "StoreUnavailable", db)
                  else
                    let db1 : DB :=
                      { db with
                          tokens :=
                            upsertToken db.tokens user.uid refreshToken }
                    (Outcome.resp 200
                      [⟨"accessToken", accessToken,
                         1000 * 60 * 60 * 24, true⟩,
                       ⟨"refreshToken", refreshToken,
                         1000 * 60 * 60 * 24, true⟩]
                      [] (some (userDTO user)) true, db1)

/-- `authController.logout`.  `deleteOk` is whether
`RefreshToken.deleteOne({ token })` succeeds (its failure is caught and
forwarded to `next`).  On success the handler always clears both cookies and
responds 200 `{ user: null, auth: false }`, whether or not a record matched
the presented cookie. -/
def logout (db : DB) (cookieToken : Option Tok) (deleteOk : Bool) :
    Outcome × DB :=
  if !deleteOk then (Outcome.nextErr none "StoreUnavailable", db)
  else
    let db1 : DB :=
      match cookieToken with
      | none => db
      | some t => { db with tokens := deleteFirstByToken db.tokens t }
    (Outcome.resp 200 [] ["accessToken", "refreshToken"] none false, db1)

/-- `authController.refresh`.  `storeOk` is whether the rotation's
`RefreshToken.updateOne({ _id: id }, { token })` write succeeds (caught →
`next`).  Source steps, in order: `JWTService.verifyRefreshToken` on the
cookie, failure → `next({ status: 401, message: "unauthorized" })`;
then `const match = RefreshToken.findOne({ _id: id, token })` — the promise
is NOT awaited, so `match` is bound to the pending query object, which is
truthy, and the `if (!match)` absence branch is dead code (embedded here as
the constant `matchedTruthy`); the new pair is signed and the rotation
`updateOne` (no upsert: it inserts nothing when no record exists) runs; the
two `res.cookie` calls (access maxAge `1000 * 60 * 60 * 24`, refresh maxAge
`1000 * 60 * 6024`); `User.findOne({ _id: id })` whose result is passed to
`new userDTO(...)` with no absence check — on `null` the constructor's field
reads throw, uncaught; otherwise the 200 response with `auth: true`. -/
def refresh (db : DB) (cookieToken : Option Tok) (nonce1 nonce2 : Nat)
    (storeOk : Bool) : Outcome × DB :=
  match verifyRefreshToken cookieToken with
  | none => (Outcome.nextErr (some 401) "unauthorized", db)
  | some id =>
      let matchedTruthy : Bool := true
      if !matchedTruthy then (Outcome.nextErr (some 401) "unauthorized", db)
      else
        let accessToken := signAccessToken id "30m" nonce1
        let refreshToken := signRefreshToken id "60m" nonce2
        if !storeOk then (Outcome.nextErr none "StoreUnavailable", db)
        else
          let db1 : DB :=
            { db with tokens := updateFirst db.tokens id refreshToken }
          match findUserById db1 id with
          | none => (Outcome.thrown "TypeError: cannot read property of null",
                     db1)
          | some user =>
              (Outcome.resp 200
                [⟨"accessToken", accessToken, 1000 * 60 * 60 * 24, true⟩,
                 ⟨"refreshToken", refreshToken, 1000 * 60 * 6024, true⟩]
                [] (some (userDTO user)) true, db1)

/-- The operations of the Session Manager state machine, with their failure
switches, for reasoning about whole operation sequences. -/
inductive Op where
  | reg (body : RegisterBody) (n1 n2 : Nat) (saveOk storeOk : Bool)
  | logIn (body : LoginBody) (n1 n2 : Nat) (storeOk : Bool)
  | logOut (t : Option Tok) (deleteOk : Bool)
  | ref (t : Option Tok) (n1 n2 : Nat) (storeOk : Bool)

/-- The state transition an operation performs (the second component of the
corresponding handler). -/
def applyOp (db : DB) : Op → DB
  | Op.reg b n1 n2 s k => (register db b n1 n2 s k).2
  | Op.logIn b n1 n2 k => (login db b n1 n2 k).2
  | Op.logOut t d => (logout db t d).2
  | Op.ref t n1 n2 k => (refresh db t n1 n2 k).2

/-- Run a sequence of operations from a starting state. -/
def runOps (db : DB) : List Op → DB
  | [] => db
  | o :: os => runOps (applyOp db o) os

/-- How many documents of the tokens collection have `_id = u`. -/
def keyCount (l : List TokenRec) (u : Nat) : Nat :=
  (l.filter (fun r => r.key == u)).length

/-- How many RefreshToken records the store holds for user `u`. -/
def countFor (db : DB) (u : Nat) : Nat :=
  keyCount db.tokens u

/-- The empty database: no users, no token records. -/
def emptyDB : DB := ⟨[], [], 0⟩

/-- The maxAge values of the `refreshToken` cookies a response set. -/
def refreshCookieMaxAges (o : Outcome) : List Nat :=
  (cookiesOf o).filterMap
    (fun c => if c.name == "refreshToken" then some c.maxAge else none)

/-- A registration body for the scenario fixtures: user `alice`. -/
def bodyAlice : RegisterBody :=
  ⟨some "alice", some "Alice", some "alice@x.com", some "Aa1@aaaa", none⟩

/-- The refresh token `register emptyDB bodyAlice 0 1 true true` issues. -/
def tokAlice : Tok := ⟨0, TokPurpose.refresh, 1, true⟩

/-- The database state after alice's successful registration: one user
(uid 0) and one token record holding `tokAlice`. -/
def dbAlice : DB := (register emptyDB bodyAlice 0 1 true true).2

theorem keyCount_nil (u : Nat) : keyCount [] u = 0 := rfl

theorem keyCount_updateFirst (l : List TokenRec) (k : Nat) (t : Tok)
    (u : Nat) : keyCount (updateFirst l k t) u = keyCount l u := by
  induction l with
  | nil => rfl
  | cons r rs ih =>
      rw [updateFirst]
      cases hrk : r.key == k with
      | false =>
          simp only [Bool.false_eq_true, if_false, keyCount, List.filter_cons]
          cases hru : r.key == u <;>
            simpa [hru, keyCount] using ih
      | true =>
          simp only [if_true, keyCount, List.filter_cons]
          cases hru : r.key == u <;> simp [hru]

theorem keyCount_append_single (l : List TokenRec) (k : Nat) (t : Tok)
    (u : Nat) :
    keyCount (l ++ [⟨k, t⟩]) u =
      keyCount l u + (if (k == u) = true then 1 else 0) := by
  rw [keyCount, List.filter_append, List.length_append]
  cases hk : k == u <;> simp [keyCount, List.filter_cons, hk]

theorem keyCount_eq_zero_of_not_any (l : List TokenRec) (k : Nat)
    (h : l.any (fun r => r.key == k) = false) : keyCount l k = 0 := by
  induction l with
  | nil => rfl
  | cons r rs ih =>
      rw [List.any_cons, Bool.or_eq_false_iff] at h
      rw [keyCount, List.filter_cons, h.1]
      simpa [keyCount] using ih h.2

theorem keyCount_pos_of_any (l : List TokenRec) (k : Nat)
    (h : l.any (fun r => r.key == k) = true) : 1 ≤ keyCount l k := by
  induction l with
  | nil => simp [List.any_nil] at h
  | cons r rs ih =>
      rw [List.any_cons] at h
      rw [keyCount, List.filter_cons]
      cases hrk : r.key == k with
      | true => simp
      | false =>
          rw [hrk] at h
          rw [Bool.false_or] at h
          simpa [keyCount] using ih h

theorem keyCount_upsert_self (l : List TokenRec) (k : Nat) (t : Tok)
    (h : keyCount l k ≤ 1) : keyCount (upsertToken l k t) k = 1 := by
  rw [upsertToken]
  cases ha : l.any (fun r => r.key == k) with
  | false =>
      simp only [Bool.false_eq_true, if_false]
      rw [keyCount_append_single, keyCount_eq_zero_of_not_any l k ha]
      simp
  | true =>
      simp only [if_true]
      rw [keyCount_updateFirst]
      have := keyCount_pos_of_any l k ha
      omega

theorem keyCount_upsert_other (l : List TokenRec) (k : Nat) (t : Tok)
    (u : Nat) (h : (k == u) = false) :
    keyCount (upsertToken l k t) u = keyCount l u := by
  rw [upsertToken]
  cases ha : l.any (fun r => r.key == k) with
  | false =>
      simp only [Bool.false_eq_true, if_false]
      rw [keyCount_append_single, h]
      simp
  | true =>
      simp only [if_true]
      exact keyCount_updateFirst l k t u

theorem keyCount_upsert_le (l : List TokenRec) (k : Nat) (t : Tok)
    (h : ∀ v, keyCount l v ≤ 1) (u : Nat) :
    keyCount (upsertToken l k t) u ≤ 1 := by
  cases hk : k == u with
  | true =>
      have hk' : k = u := by simpa using hk
      subst hk'
      exact Nat.le_of_eq (keyCount_upsert_self l k t (h k))
  | false =>
      rw [keyCount_upsert_other l k t u hk]
      exact h u

theorem deleteFirstByToken_sublist (l : List TokenRec) (t : Tok) :
    List.Sublist (deleteFirstByToken l t) l := by
  induction l with
  | nil => exact List.Sublist.refl []
  | cons r rs ih =>
      rw [deleteFirstByToken]
      cases hrt : r.token == t with
      | true =>
          simp only [if_true]
          exact List.sublist_cons_self r rs
      | false =>
          simp only [Bool.false_eq_true, if_false]
          exact List.Sublist.cons₂ r ih

theorem keyCount_delete_le (l : List TokenRec) (t : Tok) (u : Nat) :
    keyCount (deleteFirstByToken l t) u ≤ keyCount l u :=
  List.Sublist.length_le
    (List.Sublist.filter (fun r => r.key == u) (deleteFirstByToken_sublist l t))

theorem countFor_refresh_eq (db : DB) (t : Option Tok) (n1 n2 : Nat)
    (stOk : Bool) (u : Nat) :
    countFor (refresh db t n1 n2 stOk).2 u = countFor db u := by
  unfold refresh
  dsimp only
  repeat' split
  all_goals try rfl
  all_goals (rw [countFor, countFor]; exact keyCount_updateFirst _ _ _ _)

theorem countFor_logout_le (db : DB) (t : Option Tok) (dOk : Bool) (u : Nat) :
    countFor (logout db t dOk).2 u ≤ countFor db u := by
  unfold logout
  dsimp only
  repeat' split
  all_goals try exact Nat.le_refl _
  all_goals (rw [countFor, countFor]; exact keyCount_delete_le _ _ _)

theorem countFor_register_le (db : DB) (b : RegisterBody) (n1 n2 : Nat)
    (sOk stOk : Bool) (h : ∀ v, countFor db v ≤ 1) (u : Nat) :
    countFor (register db b n1 n2 sOk stOk).2 u ≤ 1 := by
  unfold register
  dsimp only
  repeat' split
  all_goals try exact h u
  all_goals (rw [countFor]; exact keyCount_upsert_le _ _ _ (fun v => h v) u)

theorem countFor_login_le (db : DB) (b : LoginBody) (n1 n2 : Nat)
    (stOk : Bool) (h : ∀ v, countFor db v ≤ 1) (u : Nat) :
    countFor (login db b n1 n2 stOk).2 u ≤ 1 := by
  unfold login
  dsimp only
  repeat' split
  all_goals try exact h u
  all_goals (rw [countFor]; exact keyCount_upsert_le _ _ _ (fun v => h v) u)

theorem countFor_applyOp_le (db : DB) (o : Op)
    (h : ∀ v, countFor db v ≤ 1) (u : Nat) :
    countFor (applyOp db o) u ≤ 1 := by
  cases o with
  | reg b n1 n2 s k => exact countFor_register_le db b n1 n2 s k h u
  | logIn b n1 n2 k => exact countFor_login_le db b n1 n2 k h u
  | logOut t d => exact Nat.le_trans (countFor_logout_le db t d u) (h u)
  | ref t n1 n2 k =>
      exact Nat.le_trans (Nat.le_of_eq (countFor_refresh_eq db t n1 n2 k u))
        (h u)

theorem countFor_runOps_le (ops : List Op) (db : DB)
    (h : ∀ v, countFor db v ≤ 1) (u : Nat) :
    countFor (runOps db ops) u ≤ 1 := by
  induction ops generalizing db with
  | nil => exact h u
  | cons o os ih =>
      exact ih (applyOp db o) (fun v => countFor_applyOp_le db o h v)

theorem countFor_register_success (db : DB) (b : RegisterBody) (n1 n2 : Nat)
    (sOk stOk : Bool) (uid : Nat) (h : ∀ v, countFor db v ≤ 1)
    (hr : respUserId (register db b n1 n2 sOk stOk).1 = some uid) :
    countFor (register db b n1 n2 sOk stOk).2 uid = 1 := by
  unfold register at hr ⊢
  dsimp only at hr ⊢
  revert hr
  repeat' split
  all_goals intro hr
  all_goals simp [respUserId] at hr
  rw [countFor]
  dsimp only
  rw [userDTO] at hr
  dsimp only at hr
  rw [← hr]
  exact keyCount_upsert_self _ _ _ (h _)

theorem countFor_login_success (db : DB) (b : LoginBody) (n1 n2 : Nat)
    (stOk : Bool) (uid : Nat) (h : ∀ v, countFor db v ≤ 1)
    (hr : respUserId (login db b n1 n2 stOk).1 = some uid) :
    countFor (login db b n1 n2 stOk).2 uid = 1 := by
  unfold login at hr ⊢
  dsimp only at hr ⊢
  revert hr
  repeat' split
  all_goals intro hr
  all_goals simp [respUserId] at hr
  rw [countFor]
  dsimp only
  rw [userDTO] at hr
  dsimp only at hr
  rw [← hr]
  exact keyCount_upsert_self _ _ _ (h _)

/-- Claim C1.  The spec demands that after a successful Refresh produced T2
from T1, presenting T1 again fails with Unauthorized and causes no state
change.  The code violates this: `RefreshToken.findOne` in `refresh` is not
awaited, so the Session-Store match check never rejects anything.  Evaluated
at the concrete failing input: after alice registers (her stored refresh
token is `tokAlice`) and refreshes once (rotating the stored record to the
nonce-3 token, distinct from `tokAlice`), presenting the superseded
`tokAlice` again is answered with a delivered `auth: true` response instead
of a 401. -/
theorem C1_superseded_token_accepted :
    (refresh dbAlice (some tokAlice) 2 3 true).2.tokens =
        [⟨0, ⟨0, TokPurpose.refresh, 3, true⟩⟩] ∧
    tokAlice ≠ ⟨0, TokPurpose.refresh, 3, true⟩ ∧
    isAuthSuccess
        (refresh (refresh dbAlice (some tokAlice) 2 3 true).2
          (some tokAlice) 4 5 true).1 = true := by
  decide

/-- Claim C2 (amended).  At most one persisted RefreshToken record exists
per UserIdentity at any time, over all operation sequences from the empty
store; a Register or Login whose delivered response carries a user DTO
leaves that user with exactly one record (upsert semantics); Refresh never
changes any user's record count — it replaces the existing record in place
when one exists and creates none when absent (so, contrary to the claim as
stated, a Refresh that is answered with success after the record was deleted
leaves zero records, not one: see the counterexample). -/
theorem C2_single_record_invariant :
    (∀ ops u, countFor (runOps emptyDB ops) u ≤ 1) ∧
    (∀ db b n1 n2 sOk stOk uid, (∀ v, countFor db v ≤ 1) →
        respUserId (register db b n1 n2 sOk stOk).1 = some uid →
        countFor (register db b n1 n2 sOk stOk).2 uid = 1) ∧
    (∀ db b n1 n2 stOk uid, (∀ v, countFor db v ≤ 1) →
        respUserId (login db b n1 n2 stOk).1 = some uid →
        countFor (login db b n1 n2 stOk).2 uid = 1) ∧
    (∀ db t n1 n2 stOk u,
        countFor (refresh db t n1 n2 stOk).2 u = countFor db u) := by
  refine ⟨?_, ?_, ?_, ?_⟩
  · intro ops u
    exact countFor_runOps_le ops emptyDB (fun _ => Nat.zero_le 1) u
  · intro db b n1 n2 sOk stOk uid h hr
    exact countFor_register_success db b n1 n2 sOk stOk uid h hr
  · intro db b n1 n2 stOk uid h hr
    exact countFor_login_success db b n1 n2 stOk uid h hr
  · intro db t n1 n2 stOk u
    exact countFor_refresh_eq db t n1 n2 stOk u

/-- Claim C2, counterexample to the statement as frozen ("Refresh leaves the
user with exactly one record"): after alice registers and logs out, her
record count is zero, yet presenting her still-well-signed token to Refresh
is answered with a delivered `auth: true` response (the unawaited `findOne`
never rejects, and the rotation `updateOne` has no upsert) — leaving her
with zero records, not one. -/
theorem C2_successful_refresh_can_leave_zero_records :
    isAuthSuccess (refresh (logout dbAlice (some tokAlice) true).2
        (some tokAlice) 2 3 true).1 = true ∧
    countFor (refresh (logout dbAlice (some tokAlice) true).2
        (some tokAlice) 2 3 true).2 0 = 0 := by
  decide

/-- Claim C2, witness: the register clause of the amended theorem applied at
alice's concrete registration from the empty store. -/
theorem C2_single_record_invariant_witness :
    (∀ v, countFor emptyDB v ≤ 1) ∧
    respUserId (register emptyDB bodyAlice 0 1 true true).1 = some 0 ∧
    countFor (register emptyDB bodyAlice 0 1 true true).2 0 = 1 :=
  ⟨fun _ => Nat.zero_le 1, by decide,
    C2_single_record_invariant.2.1 emptyDB bodyAlice 0 1 true true 0
      (fun _ => Nat.zero_le 1) (by decide)⟩

/-- Claim C3.  The spec demands that after Logout deletes the session
record, a Refresh presenting the same still-well-signed token fails with
Unauthorized.  The code violates this: after alice registers and logs out
(record deleted), presenting `tokAlice` — which still verifies
cryptographically — is answered with a delivered `auth: true` response,
because the unawaited `RefreshToken.findOne` makes the revocation check dead
code. -/
theorem C3_logout_does_not_revoke :
    (logout dbAlice (some tokAlice) true).2.tokens = [] ∧
    verifyRefreshToken (some tokAlice) = some 0 ∧
    isAuthSuccess (refresh (logout dbAlice (some tokAlice) true).2
        (some tokAlice) 2 3 true).1 = true := by
  decide

/-- Claim C4.  A refresh request whose presented token fails cryptographic
verification (absent cookie, malformed/forged/expired token, or a token
signed for the access purpose) is answered with `next` of a 401
"unauthorized" error, the database is unchanged, and no cookie is issued. -/
theorem C4_invalid_token_rejected_no_state_change (db : DB) (t : Option Tok)
    (n1 n2 : Nat) (stOk : Bool) (h : verifyRefreshToken t = none) :
    refresh db t n1 n2 stOk =
        (Outcome.nextErr (some 401) "unauthorized", db) ∧
    cookiesOf (refresh db t n1 n2 stOk).1 = [] := by
  constructor
  · unfold refresh
    rw [h]
  · unfold refresh
    rw [h]
    rfl

/-- Claim C4, witness: a token with a bad signature, against the empty
database. -/
theorem C4_invalid_token_rejected_witness :
    verifyRefreshToken (some ⟨7, TokPurpose.refresh, 0, false⟩) = none ∧
    (refresh emptyDB (some ⟨7, TokPurpose.refresh, 0, false⟩) 0 0 true =
        (Outcome.nextErr (some 401) "unauthorized", emptyDB) ∧
      cookiesOf
        (refresh emptyDB (some ⟨7, TokPurpose.refresh, 0, false⟩)
          0 0 true).1 = []) :=
  ⟨by decide,
    C4_invalid_token_rejected_no_state_change emptyDB
      (some ⟨7, TokPurpose.refresh, 0, false⟩) 0 0 true (by decide)⟩

/-- Claim C5.  Logout is idempotent: for every database and every presented
token (including one whose record was already deleted or never existed),
Logout delivers a 200 response that clears both credential cookies and
reports `user: null, auth: false`; and calling it a second time with the
same token delivers the same success again. -/
theorem C5_logout_idempotent (db : DB) (t : Option Tok) :
    (logout db t true).1 =
        Outcome.resp 200 [] ["accessToken", "refreshToken"] none false ∧
    (logout (logout db t true).2 t true).1 =
        Outcome.resp 200 [] ["accessToken", "refreshToken"] none false :=
  ⟨rfl, rfl⟩

/-- Claim C6.  On Register (with a validation-passing body), the email-in-use
check is decided before the username-in-use check: an email collision is
reported as the 409 conflict regardless of the username, and the username
collision is reported only when the email is free. -/
theorem C6_email_conflict_checked_first (db : DB) (u n e p : String)
    (c : Option String) (n1 n2 : Nat) (sOk stOk : Bool)
    (hv : validRegister ⟨some u, some n, some e, some p, c⟩ = true) :
    (userEmailExists db e = true →
      register db ⟨some u, some n, some e, some p, c⟩ n1 n2 sOk stOk =
        (Outcome.nextErr (some 409)
          "Email already Register, use another email!", db)) ∧
    (userEmailExists db e = false → userUsernameExists db u = true →
      register db ⟨some u, some n, some e, some p, c⟩ n1 n2 sOk stOk =
        (Outcome.nextErr (some 409)
          "Username is not available , choose another username", db)) := by
  constructor
  · intro he
    unfold register
    rw [hv]
    dsimp only
    rw [he]
    rfl
  · intro he hu
    unfold register
    rw [hv]
    dsimp only
    rw [he, hu]
    rfl

/-- Claim C6, witness: registering alice's body against a database where
both her email and her username are already in use reports the email
conflict (priority over the username conflict). -/
theorem C6_email_conflict_checked_first_witness :
    validRegister bodyAlice = true ∧
    userEmailExists dbAlice "alice@x.com" = true ∧
    userUsernameExists dbAlice "alice" = true ∧
    register dbAlice bodyAlice 0 1 true true =
      (Outcome.nextErr (some 409)
        "Email already Register, use another email!", dbAlice) :=
  ⟨by decide, by decide, by decide,
    (C6_email_conflict_checked_first dbAlice "alice" "Alice" "alice@x.com"
        "Aa1@aaaa" none 0 1 true true (by decide)).1 (by decide)⟩

/-- Claim C7.  When the Session Store write fails (register's
`storeRefreshToken`, login's upsert `updateOne`), the operation ends as a
failure — an uncaught rejection for register, `next(error)` for login —
before any `res.cookie` call takes effect: the outcome carries no cookies
and is never an authenticated success, for every input. -/
theorem C7_store_write_failure_issues_no_cookies (db : DB)
    (rb : RegisterBody) (lb : LoginBody) (n1 n2 m1 m2 : Nat) (sOk : Bool) :
    cookiesOf (register db rb n1 n2 sOk false).1 = [] ∧
    isAuthSuccess (register db rb n1 n2 sOk false).1 = false ∧
    cookiesOf (login db lb m1 m2 false).1 = [] ∧
    isAuthSuccess (login db lb m1 m2 false).1 = false := by
  refine ⟨?_, ?_, ?_, ?_⟩
  · unfold register
    dsimp only
    repeat' split
    all_goals first | rfl | simp_all
  · unfold register
    dsimp only
    repeat' split
    all_goals first | rfl | simp_all
  · unfold login
    dsimp only
    repeat' split
    all_goals first | rfl | simp_all
  · unfold login
    dsimp only
    repeat' split
    all_goals first | rfl | simp_all

/-- Claim C8.  The refresh handler renews the refreshToken cookie with
maxAge `1000 * 60 * 6024` (361,440,000 ms), a magic constant inconsistent
with the `1000 * 60 * 60 * 24` (86,400,000 ms) the login path sets on the
same cookie, shown on delivered responses of each path. -/
theorem C8_refresh_cookie_maxage_inconsistent :
    refreshCookieMaxAges (refresh dbAlice (some tokAlice) 2 3 true).1 =
        [1000 * 60 * 6024] ∧
    refreshCookieMaxAges
        (login dbAlice ⟨some "alice", some "Aa1@aaaa"⟩ 4 5 true).1 =
        [1000 * 60 * 60 * 24] ∧
    (1000 * 60 * 6024 : Nat) ≠ 1000 * 60 * 60 * 24 := by
  decide

/-- Claim C9.  The login schema does not require the password field: a body
with a valid username (3–30 characters) and no password passes validation;
and for every database and every such body, login never delivers an
authenticated success — `bcrypt.compare` rejects the absent password, so
the comparison path cannot succeed. -/
theorem C9_absent_password_never_authenticates (db : DB) (u : String)
    (n1 n2 : Nat) (stOk : Bool) (h3 : 3 ≤ u.length) (h30 : u.length ≤ 30) :
    validLogin ⟨some u, none⟩ = true ∧
    isAuthSuccess (login db ⟨some u, none⟩ n1 n2 stOk).1 = false := by
  have hv : validLogin ⟨some u, none⟩ = true := by
    simp [validLogin, h3, h30]
  refine ⟨hv, ?_⟩
  unfold login
  rw [hv]
  dsimp only
  cases hf : findUserByUsername db u with
  | none => rfl
  | some user => rfl

/-- Claim C9, witness: username "alicia" with no password, against alice's
database. -/
theorem C9_absent_password_never_authenticates_witness :
    (3 ≤ "alicia".length ∧ "alicia".length ≤ 30) ∧
    (validLogin ⟨some "alicia", none⟩ = true ∧
      isAuthSuccess (login dbAlice ⟨some "alicia", none⟩ 0 0 true).1 =
        false) :=
  ⟨⟨by decide, by decide⟩,
    C9_absent_password_never_authenticates dbAlice "alicia" 0 0 true
      (by decide) (by decide)⟩

/-- Claim C10.  For a well-signed refresh-purpose token whose subject has no
user record, the refresh handler performs no absence check after the
rotation: the `User.findOne` result is passed into the DTO constructor,
whose field reads throw on null (an uncaught exception), and the handler
never produces an Unauthorized (`next(error)`) outcome for this case. -/
theorem C10_missing_user_unchecked (db : DB) (t : Tok) (n1 n2 : Nat)
    (hs : t.wellSigned = true) (hp : t.purpose = TokPurpose.refresh)
    (hu : findUserById db t.subject = none) :
    (refresh db (some t) n1 n2 true).1 =
        Outcome.thrown "TypeError: cannot read property of null" ∧
    ∀ s m, (refresh db (some t) n1 n2 true).1 ≠ Outcome.nextErr s m := by
  have hv : verifyRefreshToken (some t) = some t.subject := by
    simp [verifyRefreshToken, hs, hp]
  have hu1 : findUserById
      { db with
          tokens := updateFirst db.tokens t.subject
            (signRefreshToken t.subject "60m" n2) } t.subject = none := hu
  have heq : (refresh db (some t) n1 n2 true).1 =
      Outcome.thrown "TypeError: cannot read property of null" := by
    unfold refresh
    rw [hv]
    dsimp only
    rw [hu1]
    rfl
  exact ⟨heq, fun s m => by rw [heq]; exact fun hcon => Outcome.noConfusion hcon⟩

/-- Claim C10, witness: a well-signed refresh token for subject 7 against
the empty database. -/
theorem C10_missing_user_unchecked_witness :
    ((⟨7, TokPurpose.refresh, 0, true⟩ : Tok).wellSigned = true ∧
      (⟨7, TokPurpose.refresh, 0, true⟩ : Tok).purpose = TokPurpose.refresh ∧
      findUserById emptyDB (⟨7, TokPurpose.refresh, 0, true⟩ : Tok).subject =
        none) ∧
    ((refresh emptyDB (some ⟨7, TokPurpose.refresh, 0, true⟩) 0 0 true).1 =
        Outcome.thrown "TypeError: cannot read property of null" ∧
      ∀ s m,
        (refresh emptyDB (some ⟨7, TokPurpose.refresh, 0, true⟩)
          0 0 true).1 ≠ Outcome.nextErr s m) :=
  ⟨⟨rfl, rfl, rfl⟩,
    C10_missing_user_unchecked emptyDB ⟨7, TokPurpose.refresh, 0, true⟩ 0 0
      rfl rfl rfl⟩

end RTW
